import Mathlib

/-!
# Tollgate metering proxy: session registry, payment validator, dispatcher

A shallow embedding of `proxy.go`.  The session map `sessions` is a finite
map from client address to session; it is represented by its lookup
function.  The source keeps `*Session` pointers in the map, so a mutation
made through the pointer fetched for a key is visible at that key; the
embedding writes the mutated session value back at that key.

All counters of a session are Go `uint64` values (`txPrice` and `txBuffer`
are declared `uint64`, and Go has no implicit conversions).  They are
natural numbers here and every arithmetic operation on them is reduced
modulo `2 ^ 64` explicitly.

Instants are integers counting nanoseconds; a `time.Duration` is a signed
64-bit count of nanoseconds.
-/

namespace Tollgate

/-! ## Machine arithmetic -/

/-- Number of values of a Go `uint64`. -/
def u64Size : Nat := 2 ^ 64

/-- Go `uint64` addition: wraps around modulo `2 ^ 64`. -/
def u64add (a b : Nat) : Nat := (a + b) % u64Size

/-- Go `uint64` subtraction: wraps around modulo `2 ^ 64`. -/
def u64sub (a b : Nat) : Nat := (a % u64Size + u64Size - b % u64Size) % u64Size

/-! ## Time -/

/-- Largest `time.Duration` (`1<<63 - 1` nanoseconds). -/
def maxDuration : Int := 2 ^ 63 - 1

/-- Smallest `time.Duration` (`-1 << 63` nanoseconds). -/
def minDuration : Int := -(2 ^ 63)

/-- One `time.Second`, in nanoseconds. -/
def Second : Int := 1000000000

/-- One `time.Minute`, in nanoseconds. -/
def Minute : Int := 60 * Second

/-- The method `Time.Sub`: the duration `t - u`, saturated to the range of
`time.Duration`. -/
def timeSub (t u : Int) : Int :=
  let d := t - u
  if d > maxDuration then maxDuration
  else if d < minDuration then minDuration
  else d

/-! ## Rate limiter -/

/-- Number of token units in one token: the bucket level is kept in
billionths of a token, so that a rate of `r` tokens per second adds exactly
`r` units per nanosecond. -/
def tokenUnit : Nat := 1000000000

/-- Modelled from the spec: the token-bucket limiter of `golang.org/x/time/rate`
is not among the sources.  A bucket of `burst` tokens refilled at `limit`
tokens per second; `tokens` is the level at instant `last`, and `last = none`
is a limiter that has never been polled.  The level is kept exactly, in whole
token units; the library keeps it as a `float64` and rounds waiting times to
whole nanoseconds, so a poll that finds the level within a few billionths of
a token of one token is not settled by this model. -/
structure Limiter where
  limit : Nat
  burst : Nat
  tokens : Nat
  last : Option Int
deriving DecidableEq

/-- Modelled from the spec: `rate.NewLimiter(r, b)`, a limiter of rate `r` and
capacity `b` that has not been polled yet. -/
def NewLimiter (r b : Nat) : Limiter :=
  { limit := r, burst := b, tokens := 0, last := none }

/-- Modelled from the spec: the bucket level at instant `now`, the level at
`last` plus the refill since then, capped at the capacity.  A limiter that
was never polled is full.  Returns the reference instant and the level. -/
def Limiter.advance (lim : Limiter) (now : Int) : Option Int × Nat :=
  match lim.last with
  | none => (none, lim.burst * tokenUnit)
  | some l =>
    let last := if now < l then now else l
    let elapsed := (now - last).toNat
    (some last, min (lim.burst * tokenUnit) (lim.tokens + elapsed * lim.limit))

/-- Modelled from the spec: `Allow()` at instant `now` (section 4.2:
non-blocking, consumes one token if available). -/
def Limiter.Allow (lim : Limiter) (now : Int) : Bool × Limiter :=
  let adv := lim.advance now
  if 1 ≤ lim.burst ∧ tokenUnit ≤ adv.2 then
    (true, { lim with last := some now, tokens := adv.2 - tokenUnit })
  else
    (false, { lim with last := adv.1 })

/-! ## Sessions -/

/-- Modelled from the spec: the declaration of `Session` is not among the
sources.  The fields are those `addSession` initialises (section 3 of the
spec); the three values are `uint64`, as the arithmetic with `txPrice` and
`txBuffer` requires. -/
structure Session where
  id : String
  limiter : Limiter
  lastSeen : Int
  consumer : String
  producer : String
  initial_value : Nat
  paid_value : Nat
  expected_value : Nat
deriving DecidableEq

/-- The map `sessions`, as its lookup function. -/
abbrev Sessions := String → Option Session

/-- The map without entries (`make(map[string]*Session)`). -/
def Sessions.empty : Sessions := fun _ => none

/-- The assignment `sessions[k] = v`. -/
def Sessions.insert (m : Sessions) (k : String) (v : Session) : Sessions :=
  fun j => if j = k then some v else m j

/-- The call `delete(sessions, k)`. -/
def Sessions.delete (m : Sessions) (k : String) : Sessions :=
  fun j => if j = k then none else m j

/-- The balance oracle `GetBalance`, an external ledger query returning a
`uint64`. -/
abbrev BalanceOracle := String → Nat

/-- Function `addSession`: `GetBalance` is the oracle at the time of the call
and `now` the reading of `time.Now()`. -/
def addSession (GetBalance : BalanceOracle) (now : Int) (sessions : Sessions)
    (ip consumer producer : String) : Session × Sessions :=
  let limiter := NewLimiter 2 5
  let value : Session :=
    { id := ip
      limiter := limiter
      lastSeen := now
      consumer := consumer
      producer := producer
      initial_value := GetBalance consumer
      paid_value := 0
      expected_value := 0 }
  (value, sessions.insert ip value)

/-- Function `getSession`. -/
def getSession (GetBalance : BalanceOracle) (now : Int) (sessions : Sessions)
    (ip consumer producer : String) : Session × Sessions :=
  match sessions ip with
  | none => addSession GetBalance now sessions ip consumer producer
  | some v =>
    let v1 := { v with lastSeen := now }
    (v1, sessions.insert ip v1)

/-- The idle timeout of the sweep, `10*time.Minute`. -/
def idleTimeout : Int := 10 * Minute

/-- The body of the `range` loop of `cleanupSessions` for the entry of `ip`:
the entry is deleted when it has not been seen for more than ten minutes.
`clock ip` is the reading of `time.Now()` when the entry is visited. -/
def sweepEntry (clock : String → Int) (sessions : Sessions) (ip : String) : Sessions :=
  match sessions ip with
  | none => sessions
  | some v =>
    if timeSub (clock ip) v.lastSeen > idleTimeout then sessions.delete ip else sessions

/-- One pass of the loop of `cleanupSessions` under the lock: the `range` loop
visits the keys of the map, here in the order `keys`. -/
def cleanupPass (clock : String → Int) : List String → Sessions → Sessions
  | [], sessions => sessions
  | ip :: rest, sessions => cleanupPass clock rest (sweepEntry clock sessions ip)

/-- Function `cleanupSessions`, run for `n` rounds of its endless loop;
`clock r` gives the clock readings of round `r` and `keys r` the order in
which round `r` visits the map. -/
def cleanupSessions (clock : Nat → String → Int) (keys : Nat → List String) :
    Nat → Sessions → Sessions
  | 0, sessions => sessions
  | n + 1, sessions =>
    cleanupPass (clock n) (keys n) (cleanupSessions clock keys n sessions)

/-! ## Payment validator -/

/-- The price of one request. -/
def txPrice : Nat := 1

/-- The tolerated gap between expected and paid value. -/
def txBuffer : Nat := 10

/-- Function `validateTransaction`: returns the verdict, the session after
the update and the map after `sessions[session.id] = session`. -/
def validateTransaction (GetBalance : BalanceOracle) (sessions : Sessions)
    (session : Session) : Bool × Session × Sessions :=
  let s1 := { session with expected_value := u64add session.expected_value txPrice }
  let s2 := { s1 with paid_value := u64sub (GetBalance s1.consumer) s1.initial_value }
  let sessions1 := sessions.insert s2.id s2
  if u64sub s2.expected_value s2.paid_value > txBuffer then
    (false, s2, sessions1)
  else
    (true, s2, sessions1)

/-! ## Endpoint registry -/

/-- Modelled from the spec: the declaration of `Endpoint` is not among the
sources.  The fields are those of the literals in `seeds` (section 3 of the
spec). -/
structure Endpoint where
  Id : String
  Url : String
  Address : String
deriving DecidableEq

/-- The built-in endpoint records written at startup. -/
def seeds : List Endpoint :=
  [ { Id := "a"
      Url := "https://alpha-api-nightly.mol.ai"
      Address := "FMYHLHBSJJMJZNPVUOKDCUSFOPQAGPBSPOPMFVBGXUUDFPEWPXREZFQKGKSNHZWDMODRDYWIXQT9CLVBXGPANCSYBW" },
    { Id := "b"
      Url := "https://google.com"
      Address := "FMYHLHBSJJMJZNPVUOKDCUSFOPQAGPBSPOPMFVBGXUUDFPEWPXREZFQKGKSNHZWDMODRDYWIXQT9CLVBXGPANCSYBW" } ]

/-- The bucket `APIS` of the key-value store: endpoint id to stored bytes. -/
abbrev Bucket := String → Option (List Nat)

/-- The call `b.Get(key)`: the stored bytes, or the nil slice when the key
has no record. -/
def Bucket.Get (b : Bucket) (key : String) : List Nat := (b key).getD []

/-- What decoding a stored value into `*Endpoint` yields: an error, the nil
pointer (the JSON literal `null`), or a record. -/
abbrev Decoder := List Nat → Except Unit (Option Endpoint)

/-- The call `json.Unmarshal(v, &apiData)`.  Empty input is rejected
("unexpected end of JSON input"); on any other input the result is whatever
the decoder `decode` gives. -/
def jsonUnmarshal (decode : Decoder) (v : List Nat) : Except Unit (Option Endpoint) :=
  if v = [] then Except.error () else decode v

/-- The result of the read transaction of `proxy_handler` (the closure given
to `db.View`). -/
inductive Lookup where
  -- the closure returned an error
  | failed
  -- the closure panicked: nil `apiData`, or `must` on a URL that does not parse
  | crashed
  -- the closure returned nil: the endpoint record and the parsed upstream
  | found (apiData : Endpoint) (remote : String)
deriving DecidableEq

/-- The closure passed to `db.View` in `proxy_handler`; `parse` stands for
`url.Parse`.  The producer balance it fetches is only logged. -/
def lookupEndpoint (b : Bucket) (decode : Decoder) (parse : String → Option String)
    (id : String) : Lookup :=
  match jsonUnmarshal decode (b.Get id) with
  | Except.error _ => Lookup.failed
  | Except.ok none => Lookup.crashed
  | Except.ok (some apiData) =>
    match parse apiData.Url with
    | none => Lookup.crashed
    | some remote => Lookup.found apiData remote

/-! ## Request dispatcher -/

/-- The parts of `http.Request` the handler reads or writes. -/
structure Request where
  Method : String
  Host : String
  Path : String
  RemoteAddr : String
  Header : List (String × String)
deriving DecidableEq

/-- How `proxy_handler` ends. -/
inductive Outcome where
  -- the reply written by `http.Error` with this status code
  | status (code : Nat)
  -- the request `req` handed to the reverse proxy of upstream `remote`
  | proxied (remote : String) (req : Request)
  -- the handler panicked
  | panicked
deriving DecidableEq

/-- The store and the libraries the handler depends on. -/
structure Config where
  apis : Bucket
  decode : Decoder
  parse : String → Option String

/-- What the outside world answers during one request: the clock reading in
`getSession`, the clock reading in `Allow`, the balance oracle when the
session is created and the balance oracle when the payment is validated. -/
structure Tick where
  seenAt : Int
  allowAt : Int
  balanceAtCreate : BalanceOracle
  balanceAtValidate : BalanceOracle

/-- The fixed consumer account passed to `getSession`. -/
def consumerAccount : String :=
  "JXBIEWEBYCZOKBHIGDXT9VNLUTGCZGXJLCSAUTCRGEEHFETHRIVMTBNKGPQUXNVSCLIWEKHWFBASGYFLWZOGJE9YPX"

/-- Function `proxy_handler`; `id` and `path` are the route variables.  `Allow`
changes the limiter the session points to, so the change shows in the map
under the key the session was fetched for (`req.RemoteAddr`) and under the
key `validateTransaction` stored it at (`session.id`). -/
def proxy_handler (cfg : Config) (tick : Tick) (sessions : Sessions) (req : Request)
    (id path : String) : Outcome × Sessions :=
  match lookupEndpoint cfg.apis cfg.decode cfg.parse id with
  | Lookup.failed => (Outcome.status 404, sessions)
  | Lookup.crashed => (Outcome.panicked, sessions)
  | Lookup.found apiData remote =>
    let got := getSession tick.balanceAtCreate tick.seenAt sessions req.RemoteAddr
      consumerAccount apiData.Address
    let checked := validateTransaction tick.balanceAtValidate got.2 got.1
    let validTX := checked.1
    let polled := checked.2.1.limiter.Allow tick.allowAt
    let session := { checked.2.1 with limiter := polled.2 }
    let sessions1 := (checked.2.2.insert session.id session).insert req.RemoteAddr session
    if polled.1 = false ∨ validTX = false then
      (Outcome.status 429, sessions1)
    else
      (Outcome.proxied remote { req with Host := "", Path := path }, sessions1)

/-- One incoming request with the answers of the outside world during it. -/
structure Arrival where
  tick : Tick
  req : Request
  id : String
  path : String

/-- Requests handled one after the other, with the outcome of each. -/
def serve (cfg : Config) : List Arrival → Sessions → List Outcome × Sessions
  | [], sessions => ([], sessions)
  | a :: rest, sessions =>
    let r := proxy_handler cfg a.tick sessions a.req a.id a.path
    let rs := serve cfg rest r.2
    (r.1 :: rs.1, rs.2)

/-- The session after `k` consecutive calls of `validateTransaction`, the
oracle answering `bal j` during call `j`.  Between calls the limiter and the
last-seen time of the session may be changed arbitrarily (`lim j`, `seen j`),
as `Allow` and `getSession` do. -/
def afterCalls (bal : Nat → BalanceOracle) (lim : Nat → Limiter) (seen : Nat → Int) :
    Nat → Sessions × Session → Sessions × Session
  | 0, st => st
  | k + 1, st =>
    let prev := afterCalls bal lim seen k st
    let s := { prev.2 with limiter := lim k, lastSeen := seen k }
    let r := validateTransaction (bal k) prev.1 s
    (r.2.2, r.2.1)

/-- The verdict of call number `k + 1` of `validateTransaction` in the run
described by `afterCalls`. -/
def verdictOfCall (bal : Nat → BalanceOracle) (lim : Nat → Limiter) (seen : Nat → Int)
    (k : Nat) (st : Sessions × Session) : Bool :=
  let prev := afterCalls bal lim seen k st
  (validateTransaction (bal k) prev.1
    { prev.2 with limiter := lim k, lastSeen := seen k }).1

/-! ## Fixtures -/

/-- A store holding the two seed records under one-byte encodings. -/
def seededApis : Bucket := fun k =>
  if k = "a" then some [1] else if k = "b" then some [2] else none

/-- A decoder for the encodings of `seededApis`; any other input is an error. -/
def seedDecode : Decoder := fun v =>
  if v = [1] then Except.ok (seeds.get? 0)
  else if v = [2] then Except.ok (seeds.get? 1)
  else Except.error ()

/-- A configuration with the seeded store and a URL parser accepting every
string. -/
def seededConfig : Config :=
  { apis := seededApis, decode := seedDecode, parse := fun u => some u }

/-- A request of client `10.0.0.7:5000` for `/endpoint/a/v1/status`. -/
def sampleRequest : Request :=
  { Method := "GET", Host := "tollgate.example", Path := "/endpoint/a/v1/status",
    RemoteAddr := "10.0.0.7:5000", Header := [] }

/-- A world in which the consumer balance is `100` throughout and the clock
reads `t` nanoseconds. -/
def steadyTick (t : Int) : Tick :=
  { seenAt := t, allowAt := t, balanceAtCreate := fun _ => 100,
    balanceAtValidate := fun _ => 100 }

/-- A session opened with a balance snapshot of `100`, before its first
validation. -/
def sampleSession : Session :=
  { id := "10.0.0.7:5000", limiter := NewLimiter 2 5, lastSeen := 0,
    consumer := consumerAccount, producer := "PRODUCER",
    initial_value := 100, paid_value := 0, expected_value := 0 }

/-- A session that has used up its buffer: ten requests expected, none paid. -/
def debtorSession : Session := { sampleSession with expected_value := 10 }

/-- A map holding only `debtorSession`, under its client address. -/
def debtorSessions : Sessions := Sessions.empty.insert "10.0.0.7:5000" debtorSession

/-- The state of a session in the middle of a burst of requests that began at
instant `a1`: after `i` requests, the last of them polled at instant `l`, with
balance snapshot `B`.  The bucket (rate 2, capacity 5) holds at least `5 - i`
tokens and at most `5 - i` tokens plus the refill since `a1`. -/
def BurstState (a1 l : Int) (i B : Nat) (s : Session) : Prop :=
  s.consumer = consumerAccount ∧ s.initial_value = B ∧ s.expected_value = i ∧
  s.limiter.limit = 2 ∧ s.limiter.burst = 5 ∧ s.limiter.last = some l ∧ a1 ≤ l ∧
  5000000000 ≤ s.limiter.tokens + i * 1000000000 ∧
  (s.limiter.tokens : Int) + (i : Int) * 1000000000 ≤ 5000000000 + 2 * (l - a1)

/-- The `i`-th request of a burst: request `req` for endpoint `id` and path
`path`, arriving in the world `ts i`. -/
def arrivalAt (ts : Nat → Tick) (req : Request) (id path : String) (i : Nat) : Arrival :=
  { tick := ts i, req := req, id := id, path := path }

/-- A world with steady balance 100 whose clock reads `t` milliseconds. -/
def tickAtMs (t : Int) : Tick := steadyTick (t * 1000000)

/-- Six worlds with clock readings 0, 100, 200, 300, 400 and 900 ms. -/
def spacedTicks (i : Nat) : Tick :=
  tickAtMs (if i = 0 then 0 else if i = 1 then 100 else if i = 2 then 200
    else if i = 3 then 300 else if i = 4 then 400 else 900)

/-- Six worlds with clock readings 0, 10, 20, 30, 40 and 50 ms. -/
def rapidTicks (i : Nat) : Tick := tickAtMs (10 * (i : Int))

/-- A session of another client, last seen one nanosecond after instant 0. -/
def recentSession : Session :=
  { sampleSession with id := "10.0.0.8:80", lastSeen := 1 }

/-- A map with `sampleSession` (last seen at 0) and `recentSession`. -/
def twoSessions : Sessions :=
  (Sessions.empty.insert "10.0.0.7:5000" sampleSession).insert "10.0.0.8:80" recentSession

/-! ## Basic facts -/

theorem insert_same (m : Sessions) (k : String) (v : Session) :
    m.insert k v k = some v := by
  simp [Sessions.insert]

theorem insert_other (m : Sessions) (k j : String) (v : Session) (h : j ≠ k) :
    m.insert k v j = m j := by
  simp [Sessions.insert, h]

theorem u64sub_self (a : Nat) : u64sub a a = 0 := by
  unfold u64sub u64Size
  have h : a % 2 ^ 64 < 2 ^ 64 := Nat.mod_lt _ (by norm_num)
  have e : a % 2 ^ 64 + 2 ^ 64 - a % 2 ^ 64 = 2 ^ 64 := by omega
  rw [e]
  exact Nat.mod_self _

theorem u64add_small (a b : Nat) (h : a + b < 2 ^ 64) : u64add a b = a + b := by
  unfold u64add u64Size
  exact Nat.mod_eq_of_lt h

theorem u64sub_zero_small (a : Nat) (h : a < 2 ^ 64) : u64sub a 0 = a := by
  unfold u64sub u64Size
  have e : a % 2 ^ 64 = a := Nat.mod_eq_of_lt h
  rw [e]
  simp only [Nat.zero_mod, Nat.sub_zero, Nat.add_mod_right]
  exact e

/-- The verdict of `validateTransaction`, in the arithmetic of the code. -/
theorem validateTransaction_verdict (bal : BalanceOracle) (m : Sessions) (s : Session) :
    (validateTransaction bal m s).1 =
      decide (u64sub (u64add s.expected_value 1)
        (u64sub (bal s.consumer) s.initial_value) ≤ 10) := by
  simp only [validateTransaction, txPrice, txBuffer]
  split_ifs with h
  · simp only [gt_iff_lt] at h
    simp [h]
  · simp only [gt_iff_lt, not_lt] at h
    simp [h]

/-- The session `validateTransaction` leaves behind. -/
theorem validateTransaction_session (bal : BalanceOracle) (m : Sessions) (s : Session) :
    (validateTransaction bal m s).2.1 =
      { s with expected_value := u64add s.expected_value 1
               paid_value := u64sub (bal s.consumer) s.initial_value } := by
  simp only [validateTransaction, txPrice]
  split_ifs <;> rfl

/-- The map `validateTransaction` leaves behind. -/
theorem validateTransaction_sessions (bal : BalanceOracle) (m : Sessions) (s : Session) :
    (validateTransaction bal m s).2.2 = m.insert s.id (validateTransaction bal m s).2.1 := by
  simp only [validateTransaction]
  split_ifs <;> rfl

/-- What `getSession` does for a client without an entry. -/
theorem getSession_of_none (bal : BalanceOracle) (now : Int) (sessions : Sessions)
    (ip consumer producer : String) (h : sessions ip = none) :
    getSession bal now sessions ip consumer producer =
      ({ id := ip, limiter := NewLimiter 2 5, lastSeen := now, consumer := consumer,
         producer := producer, initial_value := bal consumer, paid_value := 0,
         expected_value := 0 },
       sessions.insert ip
        { id := ip, limiter := NewLimiter 2 5, lastSeen := now, consumer := consumer,
          producer := producer, initial_value := bal consumer, paid_value := 0,
          expected_value := 0 }) := by
  simp only [getSession, h, addSession]

/-- What `getSession` does for a client with an entry. -/
theorem getSession_of_some (bal : BalanceOracle) (now : Int) (sessions : Sessions)
    (ip consumer producer : String) (v : Session) (h : sessions ip = some v) :
    getSession bal now sessions ip consumer producer =
      ({ v with lastSeen := now }, sessions.insert ip { v with lastSeen := now }) := by
  simp only [getSession, h]

/-- The saturating `Time.Sub` exceeds the idle timeout exactly when the true
difference of the instants exceeds 600 seconds. -/
theorem timeSub_gt_idleTimeout (t u : Int) :
    timeSub t u > idleTimeout ↔ t - u > 600000000000 := by
  simp only [timeSub, idleTimeout, Minute, Second, maxDuration, minDuration]
  split_ifs with h1 h2 <;> norm_num at * <;> omega

/-- A missing record reads as the nil slice, which does not decode. -/
theorem jsonUnmarshal_missing (b : Bucket) (decode : Decoder) (id : String)
    (h : b id = none) : jsonUnmarshal decode (b.Get id) = Except.error () := by
  simp [jsonUnmarshal, Bucket.Get, h]

/-- A handler whose lookup fails answers 404 and leaves the map alone. -/
theorem proxy_handler_of_failed (cfg : Config) (tick : Tick) (sessions : Sessions)
    (req : Request) (id path : String)
    (h : lookupEndpoint cfg.apis cfg.decode cfg.parse id = Lookup.failed) :
    proxy_handler cfg tick sessions req id path = (Outcome.status 404, sessions) := by
  simp only [proxy_handler, h]

/-! ## Payment validator: verdict -/

/-- C1: `validateTransaction` compares the gap in `uint64` arithmetic, not
over the integers.  For a session opened with a balance snapshot of 100 and
no request yet, a consumer balance of 105 gives paidValue 5 and
expectedValue 1: the integer gap `1 - 5 = -4` is within the buffer of 10, yet
the call returns false, because `1 - 5` wraps around to `2 ^ 64 - 4`. -/
theorem validateTransaction_denies_client_paid_ahead :
    (validateTransaction (fun _ => 105) Sessions.empty sampleSession).1 = false ∧
    (validateTransaction (fun _ => 105) Sessions.empty sampleSession).2.1.expected_value = 1 ∧
    (validateTransaction (fun _ => 105) Sessions.empty sampleSession).2.1.paid_value = 5 ∧
    ((sampleSession.expected_value : Int) + 1)
      - ((105 : Int) - (sampleSession.initial_value : Int)) ≤ 10 := by
  refine ⟨?_, ?_, ?_, ?_⟩
  · rw [validateTransaction_verdict]
    simp only [sampleSession, u64add, u64sub, u64Size]
    decide
  · rw [validateTransaction_session]
    simp only [sampleSession, u64add, u64Size]
    decide
  · rw [validateTransaction_session]
    simp only [sampleSession, u64sub, u64Size]
    decide
  · simp only [sampleSession]
    decide

/-! ## Session registry -/

/-- C4: for a client without an entry, `getSession` returns a new session
with id the client, the given consumer and producer, initial value the
consumer balance, paid and expected value zero, a new limiter and last-seen
time now; the map then holds exactly that session for the client and is
unchanged at every other key. -/
theorem getSession_creates_session (bal : BalanceOracle) (now : Int) (sessions : Sessions)
    (ip consumer producer : String) (h : sessions ip = none) :
    (getSession bal now sessions ip consumer producer).1 =
      { id := ip, limiter := NewLimiter 2 5, lastSeen := now, consumer := consumer,
        producer := producer, initial_value := bal consumer, paid_value := 0,
        expected_value := 0 } ∧
    (getSession bal now sessions ip consumer producer).2 ip =
      some (getSession bal now sessions ip consumer producer).1 ∧
    ∀ k, k ≠ ip → (getSession bal now sessions ip consumer producer).2 k = sessions k := by
  rw [getSession_of_none bal now sessions ip consumer producer h]
  refine ⟨rfl, insert_same _ _ _, ?_⟩
  intro k hk
  exact insert_other _ _ _ _ hk

theorem getSession_creates_session_witness :
    (getSession (fun _ => 100) 7 Sessions.empty "10.0.0.7:5000" "CONSUMER" "PRODUCER").1 =
      { id := "10.0.0.7:5000", limiter := NewLimiter 2 5, lastSeen := 7,
        consumer := "CONSUMER", producer := "PRODUCER", initial_value := 100,
        paid_value := 0, expected_value := 0 } ∧
    (getSession (fun _ => 100) 7 Sessions.empty "10.0.0.7:5000" "CONSUMER" "PRODUCER").2
        "10.0.0.7:5000" =
      some (getSession (fun _ => 100) 7 Sessions.empty "10.0.0.7:5000" "CONSUMER"
        "PRODUCER").1 ∧
    ∀ k, k ≠ "10.0.0.7:5000" →
      (getSession (fun _ => 100) 7 Sessions.empty "10.0.0.7:5000" "CONSUMER" "PRODUCER").2 k =
        Sessions.empty k :=
  getSession_creates_session (fun _ => 100) 7 Sessions.empty "10.0.0.7:5000" "CONSUMER"
    "PRODUCER" rfl

/-- C5: for a client with an entry `v`, `getSession` returns `v` with only the
last-seen time set to now (id, limiter, consumer, producer, initial, paid and
expected value are those of `v`), whatever consumer, producer and balance
oracle are passed; the map holds that session for the client and is
unchanged at every other key. -/
theorem getSession_refreshes_lastSeen_only (bal : BalanceOracle) (now : Int)
    (sessions : Sessions) (ip consumer producer : String) (v : Session)
    (h : sessions ip = some v) :
    (getSession bal now sessions ip consumer producer).1 = { v with lastSeen := now } ∧
    (getSession bal now sessions ip consumer producer).2 ip =
      some { v with lastSeen := now } ∧
    (∀ k, k ≠ ip → (getSession bal now sessions ip consumer producer).2 k = sessions k) ∧
    ∀ (bal2 : BalanceOracle) (consumer2 producer2 : String),
      getSession bal2 now sessions ip consumer2 producer2 =
        getSession bal now sessions ip consumer producer := by
  rw [getSession_of_some bal now sessions ip consumer producer v h]
  refine ⟨rfl, insert_same _ _ _, ?_, ?_⟩
  · intro k hk
    exact insert_other _ _ _ _ hk
  · intro bal2 consumer2 producer2
    exact getSession_of_some bal2 now sessions ip consumer2 producer2 v h

theorem getSession_refreshes_lastSeen_only_witness :
    (getSession (fun _ => 999) 50 (Sessions.empty.insert "10.0.0.7:5000" sampleSession)
        "10.0.0.7:5000" "OTHER" "ELSE").1 = { sampleSession with lastSeen := 50 } ∧
    (getSession (fun _ => 999) 50 (Sessions.empty.insert "10.0.0.7:5000" sampleSession)
        "10.0.0.7:5000" "OTHER" "ELSE").2 "10.0.0.7:5000" =
      some { sampleSession with lastSeen := 50 } ∧
    (∀ k, k ≠ "10.0.0.7:5000" →
      (getSession (fun _ => 999) 50 (Sessions.empty.insert "10.0.0.7:5000" sampleSession)
        "10.0.0.7:5000" "OTHER" "ELSE").2 k =
      (Sessions.empty.insert "10.0.0.7:5000" sampleSession) k) ∧
    ∀ (bal2 : BalanceOracle) (consumer2 producer2 : String),
      getSession bal2 50 (Sessions.empty.insert "10.0.0.7:5000" sampleSession)
          "10.0.0.7:5000" consumer2 producer2 =
        getSession (fun _ => 999) 50 (Sessions.empty.insert "10.0.0.7:5000" sampleSession)
          "10.0.0.7:5000" "OTHER" "ELSE" :=
  getSession_refreshes_lastSeen_only (fun _ => 999) 50
    (Sessions.empty.insert "10.0.0.7:5000" sampleSession) "10.0.0.7:5000" "OTHER" "ELSE"
    sampleSession (insert_same _ _ _)

/-- The entry of a client after the loop body ran for key `k`. -/
theorem sweepEntry_apply (clock : String → Int) (sessions : Sessions) (k j : String) :
    sweepEntry clock sessions k j =
      if j = k then
        match sessions k with
        | none => none
        | some v => if timeSub (clock k) v.lastSeen > idleTimeout then none else some v
      else sessions j := by
  unfold sweepEntry
  cases hs : sessions k with
  | none =>
    by_cases hj : j = k
    · simp [hj, hs]
    · simp [hj]
  | some v =>
    by_cases hgt : timeSub (clock k) v.lastSeen > idleTimeout
    · by_cases hj : j = k
      · simp [hgt, hj, Sessions.delete]
      · simp [hgt, hj, Sessions.delete]
    · by_cases hj : j = k
      · simp [hgt, hj, hs]
      · simp [hgt, hj]

/-- The entry of a client after one pass: untouched when the pass did not
visit it, filtered by the idle test when it did. -/
theorem cleanupPass_apply (clock : String → Int) (keys : List String) (sessions : Sessions)
    (j : String) :
    cleanupPass clock keys sessions j =
      if j ∈ keys then
        match sessions j with
        | none => none
        | some v => if timeSub (clock j) v.lastSeen > idleTimeout then none else some v
      else sessions j := by
  induction keys generalizing sessions with
  | nil => simp [cleanupPass]
  | cons k rest ih =>
    simp only [cleanupPass]
    rw [ih, sweepEntry_apply]
    by_cases hjk : j = k
    · subst hjk
      by_cases hmem : j ∈ rest
      · simp only [hmem, if_true, List.mem_cons, true_or]
        cases hs : sessions j with
        | none => rfl
        | some v =>
          by_cases hgt : timeSub (clock j) v.lastSeen > idleTimeout
          · simp only [hgt, if_true]
          · simp only [hgt, if_false]
      · simp only [hmem, if_false, if_true, List.mem_cons, true_or]
    · simp only [hjk, if_false, List.mem_cons, false_or]

/-- C6: after one pass of the sweep over the keys of the map, the map holds
for every client exactly the session it held before, provided its idle time
(clock reading at the visit minus last-seen time, as integers) is at most
10 minutes = 600 000 000 000 ns; a session idle for longer is absent and a
surviving session is unmodified.  With a clock that reads `t` at every visit
this is the sweep at time `t`. -/
theorem cleanupPass_keeps_exactly_recent (clock : String → Int) (keys : List String)
    (sessions : Sessions) (hkeys : ∀ ip v, sessions ip = some v → ip ∈ keys)
    (ip : String) (v : Session) :
    cleanupPass clock keys sessions ip = some v ↔
      sessions ip = some v ∧ clock ip - v.lastSeen ≤ 10 * 60 * 1000000000 := by
  rw [cleanupPass_apply]
  cases hs : sessions ip with
  | none =>
    by_cases hmem : ip ∈ keys
    · simp [hmem]
    · simp [hmem]
  | some w =>
    have hmem : ip ∈ keys := hkeys ip w hs
    simp only [hmem, if_true]
    have hw := timeSub_gt_idleTimeout (clock ip) w.lastSeen
    by_cases hgt : timeSub (clock ip) w.lastSeen > idleTimeout
    · have h1 : clock ip - w.lastSeen > 600000000000 := hw.mp hgt
      simp only [hgt, if_true]
      constructor
      · intro hf
        exact absurd hf (by simp)
      · rintro ⟨he, hle⟩
        have e : w = v := Option.some.inj he
        subst e
        omega
    · have h1 : ¬ clock ip - w.lastSeen > 600000000000 := fun hc => hgt (hw.mpr hc)
      simp only [hgt, if_false]
      constructor
      · intro he
        have e : w = v := Option.some.inj he
        subst e
        refine ⟨rfl, ?_⟩
        omega
      · rintro ⟨he, _⟩
        exact he

theorem cleanupPass_keeps_exactly_recent_witness :
    (cleanupPass (fun _ => 600000000001) ["10.0.0.7:5000", "10.0.0.8:80"] twoSessions
        "10.0.0.7:5000" = some sampleSession ↔
      twoSessions "10.0.0.7:5000" = some sampleSession ∧
        (600000000001 : Int) - sampleSession.lastSeen ≤ 10 * 60 * 1000000000) ∧
    cleanupPass (fun _ => 600000000001) ["10.0.0.7:5000", "10.0.0.8:80"] twoSessions
        "10.0.0.7:5000" = none ∧
    cleanupPass (fun _ => 600000000001) ["10.0.0.7:5000", "10.0.0.8:80"] twoSessions
        "10.0.0.8:80" = some recentSession :=
  ⟨cleanupPass_keeps_exactly_recent (fun _ => 600000000001)
      ["10.0.0.7:5000", "10.0.0.8:80"] twoSessions
      (by
        intro ip v hv
        by_cases h1 : ip = "10.0.0.8:80"
        · simp [h1]
        · by_cases h2 : ip = "10.0.0.7:5000"
          · simp [h2]
          · simp [twoSessions, Sessions.insert, Sessions.empty, h1, h2] at hv)
      "10.0.0.7:5000" sampleSession,
    by decide, by decide⟩

/-! ## Dispatcher: unknown endpoints -/

/-- C8: when the endpoint id has no record in the bucket, or the stored
record does not decode, `proxy_handler` answers 404 and returns the session
map it was given: nothing is forwarded, no session is created or refreshed,
no counter changes and no limiter is polled. -/
theorem proxy_handler_unknown_endpoint_404 (cfg : Config) (tick : Tick)
    (sessions : Sessions) (req : Request) (id path : String)
    (h : cfg.apis id = none ∨
      jsonUnmarshal cfg.decode (cfg.apis.Get id) = Except.error ()) :
    proxy_handler cfg tick sessions req id path = (Outcome.status 404, sessions) := by
  have herr : jsonUnmarshal cfg.decode (cfg.apis.Get id) = Except.error () := by
    rcases h with h | h
    · exact jsonUnmarshal_missing _ _ _ h
    · exact h
  apply proxy_handler_of_failed
  simp only [lookupEndpoint, herr]

theorem proxy_handler_unknown_endpoint_404_witness :
    proxy_handler seededConfig (steadyTick 0) Sessions.empty sampleRequest "zzz" "anything" =
      (Outcome.status 404, Sessions.empty) :=
  proxy_handler_unknown_endpoint_404 seededConfig (steadyTick 0) Sessions.empty
    sampleRequest "zzz" "anything" (Or.inl (by decide))

/-! ## Dispatcher: resolved endpoints -/

/-- The seeded store resolves id `a` to the first seed record. -/
theorem seeded_lookup_a :
    lookupEndpoint seededConfig.apis seededConfig.decode seededConfig.parse "a" =
      Lookup.found
        { Id := "a"
          Url := "https://alpha-api-nightly.mol.ai"
          Address := "FMYHLHBSJJMJZNPVUOKDCUSFOPQAGPBSPOPMFVBGXUUDFPEWPXREZFQKGKSNHZWDMODRDYWIXQT9CLVBXGPANCSYBW" }
        "https://alpha-api-nightly.mol.ai" := by
  decide

/-- The outcome of a handler whose lookup succeeded. -/
theorem proxy_handler_found_outcome (cfg : Config) (tick : Tick) (sessions : Sessions)
    (req : Request) (id path : String) (apiData : Endpoint) (remote : String)
    (h : lookupEndpoint cfg.apis cfg.decode cfg.parse id = Lookup.found apiData remote) :
    (proxy_handler cfg tick sessions req id path).1 =
      if ((getSession tick.balanceAtCreate tick.seenAt sessions req.RemoteAddr
              consumerAccount apiData.Address).1.limiter.Allow tick.allowAt).1 = false ∨
          (validateTransaction tick.balanceAtValidate
            (getSession tick.balanceAtCreate tick.seenAt sessions req.RemoteAddr
              consumerAccount apiData.Address).2
            (getSession tick.balanceAtCreate tick.seenAt sessions req.RemoteAddr
              consumerAccount apiData.Address).1).1 = false
      then Outcome.status 429
      else Outcome.proxied remote { req with Host := "", Path := path } := by
  simp only [proxy_handler, h, validateTransaction_session]
  split_ifs <;> rfl

/-- The session stored for the client by a handler whose lookup succeeded. -/
theorem proxy_handler_found_session (cfg : Config) (tick : Tick) (sessions : Sessions)
    (req : Request) (id path : String) (apiData : Endpoint) (remote : String)
    (h : lookupEndpoint cfg.apis cfg.decode cfg.parse id = Lookup.found apiData remote) :
    (proxy_handler cfg tick sessions req id path).2 req.RemoteAddr =
      some
        { (getSession tick.balanceAtCreate tick.seenAt sessions req.RemoteAddr
            consumerAccount apiData.Address).1 with
          expected_value := u64add (getSession tick.balanceAtCreate tick.seenAt sessions
            req.RemoteAddr consumerAccount apiData.Address).1.expected_value 1
          paid_value := u64sub
            (tick.balanceAtValidate (getSession tick.balanceAtCreate tick.seenAt sessions
              req.RemoteAddr consumerAccount apiData.Address).1.consumer)
            (getSession tick.balanceAtCreate tick.seenAt sessions
              req.RemoteAddr consumerAccount apiData.Address).1.initial_value
          limiter := ((getSession tick.balanceAtCreate tick.seenAt sessions req.RemoteAddr
            consumerAccount apiData.Address).1.limiter.Allow tick.allowAt).2 } := by
  simp only [proxy_handler, h, validateTransaction_session]
  split_ifs <;> exact insert_same _ _ _

/-- C2: when the endpoint id resolves, `proxy_handler` answers 429 exactly
when `validateTransaction` denied the session or the limiter of the session
denied the request; otherwise the outcome is the request handed to the proxy
of the resolved upstream, with `Host` cleared and the path replaced by the
route variable `path`. -/
theorem proxy_handler_429_iff_denied (cfg : Config) (tick : Tick) (sessions : Sessions)
    (req : Request) (id path : String) (apiData : Endpoint) (remote : String)
    (h : lookupEndpoint cfg.apis cfg.decode cfg.parse id = Lookup.found apiData remote) :
    ((proxy_handler cfg tick sessions req id path).1 = Outcome.status 429 ↔
      ((validateTransaction tick.balanceAtValidate
          (getSession tick.balanceAtCreate tick.seenAt sessions req.RemoteAddr
            consumerAccount apiData.Address).2
          (getSession tick.balanceAtCreate tick.seenAt sessions req.RemoteAddr
            consumerAccount apiData.Address).1).1 = false ∨
        ((getSession tick.balanceAtCreate tick.seenAt sessions req.RemoteAddr
            consumerAccount apiData.Address).1.limiter.Allow tick.allowAt).1 = false)) ∧
    ((proxy_handler cfg tick sessions req id path).1 ≠ Outcome.status 429 →
      (proxy_handler cfg tick sessions req id path).1 =
        Outcome.proxied remote { req with Host := "", Path := path }) := by
  rw [proxy_handler_found_outcome cfg tick sessions req id path apiData remote h]
  split_ifs with hc
  · refine ⟨⟨fun _ => hc.symm, fun _ => rfl⟩, fun hne => absurd rfl hne⟩
  · refine ⟨⟨fun he => ?_, fun hd => absurd hd.symm hc⟩, fun _ => rfl⟩
    exact absurd he (by simp)

theorem proxy_handler_429_iff_denied_witness :
    (proxy_handler seededConfig (steadyTick 0) Sessions.empty sampleRequest "a"
      "v1/status").1 =
      Outcome.proxied "https://alpha-api-nightly.mol.ai"
        { sampleRequest with Host := "", Path := "v1/status" } :=
  (proxy_handler_429_iff_denied seededConfig (steadyTick 0) Sessions.empty sampleRequest
    "a" "v1/status" _ _ seeded_lookup_a).2 (by decide)

/-- C7: when the endpoint id resolves, whatever the outcome (forwarded or
429), the session stored for the client afterwards has an expected value one
`uint64` step above the one it had before the request (exactly one more when
the counter is below its maximum; zero before for a client without a session)
and a paid value recomputed as consumer balance minus initial value, in
`uint64` arithmetic. -/
theorem proxy_handler_always_accrues (cfg : Config) (tick : Tick) (sessions : Sessions)
    (req : Request) (id path : String) (apiData : Endpoint) (remote : String)
    (h : lookupEndpoint cfg.apis cfg.decode cfg.parse id = Lookup.found apiData remote) :
    (∀ v, sessions req.RemoteAddr = some v →
      ∃ s, (proxy_handler cfg tick sessions req id path).2 req.RemoteAddr = some s ∧
        s.expected_value = u64add v.expected_value txPrice ∧
        (v.expected_value + 1 < 2 ^ 64 → s.expected_value = v.expected_value + 1) ∧
        s.paid_value = u64sub (tick.balanceAtValidate v.consumer) v.initial_value ∧
        s.initial_value = v.initial_value) ∧
    (sessions req.RemoteAddr = none →
      ∃ s, (proxy_handler cfg tick sessions req id path).2 req.RemoteAddr = some s ∧
        s.expected_value = 1 ∧
        s.paid_value = u64sub (tick.balanceAtValidate consumerAccount)
          (tick.balanceAtCreate consumerAccount) ∧
        s.initial_value = tick.balanceAtCreate consumerAccount) := by
  have hs := proxy_handler_found_session cfg tick sessions req id path apiData remote h
  constructor
  · intro v hv
    have hg := congrArg Prod.fst (getSession_of_some tick.balanceAtCreate tick.seenAt
      sessions req.RemoteAddr consumerAccount apiData.Address v hv)
    rw [hg] at hs
    refine ⟨_, hs, rfl, ?_, rfl, rfl⟩
    intro hlt
    exact u64add_small _ _ hlt
  · intro hn
    have hg := congrArg Prod.fst (getSession_of_none tick.balanceAtCreate tick.seenAt
      sessions req.RemoteAddr consumerAccount apiData.Address hn)
    rw [hg] at hs
    refine ⟨_, hs, ?_, rfl, rfl⟩
    exact u64add_small 0 1 (by norm_num)

theorem proxy_handler_always_accrues_witness :
    (proxy_handler seededConfig (steadyTick 0) debtorSessions sampleRequest "a"
        "v1/status").1 = Outcome.status 429 ∧
    ∃ s, (proxy_handler seededConfig (steadyTick 0) debtorSessions sampleRequest "a"
        "v1/status").2 sampleRequest.RemoteAddr = some s ∧
      s.expected_value = u64add debtorSession.expected_value txPrice ∧
      (debtorSession.expected_value + 1 < 2 ^ 64 →
        s.expected_value = debtorSession.expected_value + 1) ∧
      s.paid_value = u64sub ((steadyTick 0).balanceAtValidate debtorSession.consumer)
        debtorSession.initial_value ∧
      s.initial_value = debtorSession.initial_value :=
  ⟨by decide,
    (proxy_handler_always_accrues seededConfig (steadyTick 0) debtorSessions sampleRequest
      "a" "v1/status" _ _ seeded_lookup_a).1 debtorSession (by decide)⟩

/-- C10: when the endpoint id resolves, the limiter stored for the client
afterwards is the limiter of the session after exactly one `Allow`, whatever
`validateTransaction` returned.  A request the validator denied is answered
429, and if its poll found a token, the bucket level stored is one token
below the level the poll found. -/
theorem proxy_handler_polls_limiter_once (cfg : Config) (tick : Tick)
    (sessions : Sessions) (req : Request) (id path : String) (apiData : Endpoint)
    (remote : String)
    (h : lookupEndpoint cfg.apis cfg.decode cfg.parse id = Lookup.found apiData remote) :
    ∃ s, (proxy_handler cfg tick sessions req id path).2 req.RemoteAddr = some s ∧
      s.limiter = ((getSession tick.balanceAtCreate tick.seenAt sessions req.RemoteAddr
        consumerAccount apiData.Address).1.limiter.Allow tick.allowAt).2 ∧
      ((validateTransaction tick.balanceAtValidate
          (getSession tick.balanceAtCreate tick.seenAt sessions req.RemoteAddr
            consumerAccount apiData.Address).2
          (getSession tick.balanceAtCreate tick.seenAt sessions req.RemoteAddr
            consumerAccount apiData.Address).1).1 = false →
        (proxy_handler cfg tick sessions req id path).1 = Outcome.status 429) ∧
      (((getSession tick.balanceAtCreate tick.seenAt sessions req.RemoteAddr
          consumerAccount apiData.Address).1.limiter.Allow tick.allowAt).1 = true →
        s.limiter.tokens + tokenUnit =
          ((getSession tick.balanceAtCreate tick.seenAt sessions req.RemoteAddr
            consumerAccount apiData.Address).1.limiter.advance tick.allowAt).2 ∧
        s.limiter.last = some tick.allowAt) := by
  refine ⟨_, proxy_handler_found_session cfg tick sessions req id path apiData remote h,
    rfl, ?_, ?_⟩
  · intro hv
    rw [proxy_handler_found_outcome cfg tick sessions req id path apiData remote h]
    exact if_pos (Or.inr hv)
  · intro ha
    simp only [Limiter.Allow] at ha ⊢
    split_ifs at ha ⊢ with hc
    refine ⟨?_, rfl⟩
    exact Nat.sub_add_cancel hc.2

theorem proxy_handler_polls_limiter_once_witness :
    (proxy_handler seededConfig (steadyTick 0) debtorSessions sampleRequest "a"
        "v1/status").1 = Outcome.status 429 ∧
    ∃ s, (proxy_handler seededConfig (steadyTick 0) debtorSessions sampleRequest "a"
        "v1/status").2 sampleRequest.RemoteAddr = some s ∧
      s.limiter.tokens + tokenUnit = 5 * tokenUnit := by
  obtain ⟨s, hs, _, h429, htok⟩ :=
    proxy_handler_polls_limiter_once seededConfig (steadyTick 0) debtorSessions
      sampleRequest "a" "v1/status" _ _ seeded_lookup_a
  refine ⟨h429 (by decide), s, hs, ?_⟩
  have ht := (htok (by decide)).1
  rw [ht]
  decide

/-! ## Payment validator: exhausting the buffer -/

/-- Along consecutive validations with the balance equal to the snapshot, the
expected value counts the calls modulo `2 ^ 64`. -/
theorem afterCalls_fields (bal : Nat → BalanceOracle) (lim : Nat → Limiter)
    (seen : Nat → Int) (st : Sessions × Session) (k : Nat)
    (h0 : st.2.expected_value = 0) :
    (afterCalls bal lim seen k st).2.expected_value = k % 2 ^ 64 ∧
    (afterCalls bal lim seen k st).2.consumer = st.2.consumer ∧
    (afterCalls bal lim seen k st).2.initial_value = st.2.initial_value := by
  induction k with
  | zero => exact ⟨by simp [afterCalls, h0], rfl, rfl⟩
  | succ n ih =>
    obtain ⟨he, hc, hi⟩ := ih
    simp only [afterCalls, validateTransaction_session]
    refine ⟨?_, hc, hi⟩
    rw [he]
    simp only [u64add, u64Size]
    omega

/-- C3: for a session just created by `addSession` whose consumer balance
stays equal to the snapshot taken at creation, call number `k + 1` of
`validateTransaction` is authorized when `k + 1 ≤ 10` and denied when
`k + 1 ≥ 11`, whatever limiter state and last-seen time the session has at
each call (call numbers within the range of the `uint64` counter). -/
theorem validateTransaction_denies_after_buffer (snap : BalanceOracle) (now : Int)
    (sessions : Sessions) (ip consumer producer : String) (bal : Nat → BalanceOracle)
    (lim : Nat → Limiter) (seen : Nat → Int)
    (hbal : ∀ j, bal j consumer = snap consumer) (k : Nat) (hk : k + 1 < 2 ^ 64) :
    verdictOfCall bal lim seen k
      ((addSession snap now sessions ip consumer producer).2,
        (addSession snap now sessions ip consumer producer).1) =
      decide (k + 1 ≤ 10) := by
  obtain ⟨he, hc, hi⟩ := afterCalls_fields bal lim seen
    ((addSession snap now sessions ip consumer producer).2,
      (addSession snap now sessions ip consumer producer).1) k rfl
  simp only [verdictOfCall, validateTransaction_verdict]
  rw [he, hc, hi]
  simp only [addSession]
  have hk1 : k % 2 ^ 64 = k := Nat.mod_eq_of_lt (by omega)
  have e : u64sub (u64add (k % 2 ^ 64) 1) (u64sub (bal k consumer) (snap consumer)) =
      k + 1 := by
    rw [hbal k, u64sub_self, hk1, u64add_small k 1 hk, u64sub_zero_small (k + 1) hk]
  simp only [e]

theorem validateTransaction_denies_after_buffer_witness :
    verdictOfCall (fun _ _ => 100) (fun _ => NewLimiter 2 5) (fun _ => 0) 9
      ((addSession (fun _ => 100) 0 Sessions.empty "10.0.0.7:5000" consumerAccount
          "PRODUCER").2,
        (addSession (fun _ => 100) 0 Sessions.empty "10.0.0.7:5000" consumerAccount
          "PRODUCER").1) = true ∧
    verdictOfCall (fun _ _ => 100) (fun _ => NewLimiter 2 5) (fun _ => 0) 10
      ((addSession (fun _ => 100) 0 Sessions.empty "10.0.0.7:5000" consumerAccount
          "PRODUCER").2,
        (addSession (fun _ => 100) 0 Sessions.empty "10.0.0.7:5000" consumerAccount
          "PRODUCER").1) = false :=
  ⟨by
      rw [validateTransaction_denies_after_buffer (fun _ => 100) 0 Sessions.empty
        "10.0.0.7:5000" consumerAccount "PRODUCER" (fun _ _ => 100) (fun _ => NewLimiter 2 5)
        (fun _ => 0) (fun _ => rfl) 9 (by norm_num)]
      decide,
    by
      rw [validateTransaction_denies_after_buffer (fun _ => 100) 0 Sessions.empty
        "10.0.0.7:5000" consumerAccount "PRODUCER" (fun _ _ => 100) (fun _ => NewLimiter 2 5)
        (fun _ => 0) (fun _ => rfl) 10 (by norm_num)]
      decide⟩

/-! ## Dispatcher: bursts of requests -/

/-- A poll of a limiter of rate 2 and capacity 5 last updated at `l`, at an
instant `now` not before `l`. -/
theorem allow_rate2_burst5 (lim : Limiter) (now l : Int) (hlast : lim.last = some l)
    (hle : l ≤ now) (hlimit : lim.limit = 2) (hburst : lim.burst = 5) :
    (1000000000 ≤ min 5000000000 (lim.tokens + (now - l).toNat * 2) →
      lim.Allow now = (true, { lim with
        last := some now
        tokens := min 5000000000 (lim.tokens + (now - l).toNat * 2) - 1000000000 })) ∧
    (¬ 1000000000 ≤ min 5000000000 (lim.tokens + (now - l).toNat * 2) →
      lim.Allow now = (false, { lim with last := some l })) := by
  have hnl : ¬ now < l := by omega
  constructor
  · intro hc
    simp only [Limiter.Allow, Limiter.advance, hlast, hlimit, hburst, hnl, if_false,
      tokenUnit]
    rw [if_pos ⟨by norm_num, by simpa using hc⟩]
  · intro hc
    simp only [Limiter.Allow, Limiter.advance, hlast, hlimit, hburst, hnl, if_false,
      tokenUnit]
    rw [if_neg (fun hp => hc (by simpa using hp.2))]

/-- The level a poll at `now` finds in a limiter of rate 2 and capacity 5 last
updated at `l`, not after `now`. -/
theorem advance_rate2_burst5 (lim : Limiter) (now l : Int) (hlast : lim.last = some l)
    (hle : l ≤ now) (hlimit : lim.limit = 2) (hburst : lim.burst = 5) :
    (lim.advance now).2 = min 5000000000 (lim.tokens + (now - l).toNat * 2) := by
  have hnl : ¬ now < l := by omega
  simp only [Limiter.advance, hlast, hlimit, hburst, hnl, if_false, tokenUnit]

/-- The first poll of a new limiter succeeds and leaves four tokens. -/
theorem allow_new (now : Int) :
    (NewLimiter 2 5).Allow now =
      (true, { limit := 2, burst := 5, tokens := 4000000000, last := some now }) := by
  simp only [Limiter.Allow, Limiter.advance, NewLimiter, tokenUnit]
  rw [if_pos ⟨by norm_num, by norm_num⟩]

/-- The session stored by the first request of a client without a session,
with the balance equal to the snapshot. -/
theorem burst_first_session (cfg : Config) (tick : Tick) (sessions : Sessions)
    (req : Request) (id path : String) (apiData : Endpoint) (remote : String)
    (h : lookupEndpoint cfg.apis cfg.decode cfg.parse id = Lookup.found apiData remote)
    (hnew : sessions req.RemoteAddr = none)
    (hbal : tick.balanceAtValidate consumerAccount = tick.balanceAtCreate consumerAccount) :
    (proxy_handler cfg tick sessions req id path).2 req.RemoteAddr = some
      { id := req.RemoteAddr,
        limiter := { limit := 2, burst := 5, tokens := 4000000000,
                     last := some tick.allowAt },
        lastSeen := tick.seenAt, consumer := consumerAccount,
        producer := apiData.Address,
        initial_value := tick.balanceAtCreate consumerAccount,
        paid_value := 0, expected_value := 1 } := by
  have hs := proxy_handler_found_session cfg tick sessions req id path apiData remote h
  have hg := congrArg Prod.fst (getSession_of_none tick.balanceAtCreate tick.seenAt
    sessions req.RemoteAddr consumerAccount apiData.Address hnew)
  simp only [hg, allow_new] at hs
  rw [hs, hbal, u64sub_self, u64add_small 0 1 (by norm_num)]

/-- The first request of a client without a session, with the balance equal
to the snapshot, is forwarded. -/
theorem burst_first_outcome (cfg : Config) (tick : Tick) (sessions : Sessions)
    (req : Request) (id path : String) (apiData : Endpoint) (remote : String)
    (h : lookupEndpoint cfg.apis cfg.decode cfg.parse id = Lookup.found apiData remote)
    (hnew : sessions req.RemoteAddr = none)
    (hbal : tick.balanceAtValidate consumerAccount = tick.balanceAtCreate consumerAccount) :
    (proxy_handler cfg tick sessions req id path).1 =
        Outcome.proxied remote { req with Host := "", Path := path } := by
  have ho := proxy_handler_found_outcome cfg tick sessions req id path apiData remote h
  have hg := congrArg Prod.fst (getSession_of_none tick.balanceAtCreate tick.seenAt
    sessions req.RemoteAddr consumerAccount apiData.Address hnew)
  have e : u64sub (u64add 0 1) (u64sub (tick.balanceAtValidate consumerAccount)
      (tick.balanceAtCreate consumerAccount)) = 1 := by
    rw [hbal, u64sub_self, u64add_small 0 1 (by norm_num), u64sub_zero_small _ (by norm_num)]
  simp only [validateTransaction_verdict, hg, allow_new, e] at ho
  rw [ho]
  simp

/-- A session with one request expected and four tokens left at instant `a`
is in burst state 1. -/
theorem burstState_first (a : Int) (B : Nat) (w : Session)
    (hc : w.consumer = consumerAccount) (hB : w.initial_value = B)
    (he : w.expected_value = 1)
    (hl : w.limiter = { limit := 2, burst := 5, tokens := 4000000000, last := some a }) :
    BurstState a a 1 B w := by
  simp only [BurstState, hc, hB, he, hl]
  norm_num

/-- The first request of a client without a session, with the balance equal
to the snapshot: forwarded, and the burst has begun. -/
theorem burst_first (cfg : Config) (tick : Tick) (sessions : Sessions) (req : Request)
    (id path : String) (apiData : Endpoint) (remote : String)
    (h : lookupEndpoint cfg.apis cfg.decode cfg.parse id = Lookup.found apiData remote)
    (hnew : sessions req.RemoteAddr = none)
    (hbal : tick.balanceAtValidate consumerAccount = tick.balanceAtCreate consumerAccount) :
    (proxy_handler cfg tick sessions req id path).1 =
        Outcome.proxied remote { req with Host := "", Path := path } ∧
    ∃ v, (proxy_handler cfg tick sessions req id path).2 req.RemoteAddr = some v ∧
      BurstState tick.allowAt tick.allowAt 1 (tick.balanceAtCreate consumerAccount) v :=
  ⟨burst_first_outcome cfg tick sessions req id path apiData remote h hnew hbal, _,
    burst_first_session cfg tick sessions req id path apiData remote h hnew hbal,
    burstState_first _ _ _ rfl rfl rfl rfl⟩

/-- A session in burst state `i ≤ 4` whose limiter was polled successfully at
instant `a` and whose expected value was stepped is in burst state `i + 1`. -/
theorem burstState_next (a1 l a : Int) (i B T : Nat) (w : Session)
    (hc : w.consumer = consumerAccount) (hB : w.initial_value = B)
    (he : w.expected_value = i + 1)
    (hlim : w.limiter =
      { limit := 2
        burst := 5
        tokens := min 5000000000 (T + (a - l).toNat * 2) - 1000000000
        last := some a })
    (ha1 : a1 ≤ l) (hl : l ≤ a) (hlo : 5000000000 ≤ T + i * 1000000000)
    (hhi : (T : Int) + (i : Int) * 1000000000 ≤ 5000000000 + 2 * (l - a1))
    (hi : i ≤ 4) :
    BurstState a1 a (i + 1) B w := by
  simp only [BurstState, hc, hB, he, hlim, true_and]
  omega

/-- A further request of a burst, at most the fifth, with the balance equal to
the snapshot: forwarded, and the burst goes on. -/
theorem burst_next (cfg : Config) (tick : Tick) (sessions : Sessions) (req : Request)
    (id path : String) (apiData : Endpoint) (remote : String)
    (h : lookupEndpoint cfg.apis cfg.decode cfg.parse id = Lookup.found apiData remote)
    (a1 l : Int) (i B : Nat) (v : Session) (hv : sessions req.RemoteAddr = some v)
    (hst : BurstState a1 l i B v) (hi : i ≤ 4) (hl : l ≤ tick.allowAt)
    (hbal : tick.balanceAtValidate consumerAccount = B) :
    (proxy_handler cfg tick sessions req id path).1 =
        Outcome.proxied remote { req with Host := "", Path := path } ∧
    ∃ w, (proxy_handler cfg tick sessions req id path).2 req.RemoteAddr = some w ∧
      BurstState a1 tick.allowAt (i + 1) B w := by
  obtain ⟨hc, hB, he, hlim, hbur, hlast, ha1, hlo, hhi⟩ := hst
  have ho := proxy_handler_found_outcome cfg tick sessions req id path apiData remote h
  have hs := proxy_handler_found_session cfg tick sessions req id path apiData remote h
  have hg := congrArg Prod.fst (getSession_of_some tick.balanceAtCreate tick.seenAt
    sessions req.RemoteAddr consumerAccount apiData.Address v hv)
  have e1 : u64add v.expected_value 1 = i + 1 := by
    rw [he]
    exact u64add_small i 1 (by omega)
  have e : u64sub (u64add v.expected_value 1) (u64sub (tick.balanceAtValidate v.consumer)
      v.initial_value) = i + 1 := by
    rw [e1, hc, hbal, hB, u64sub_self, u64sub_zero_small _ (by omega)]
  have hlevel :
      1000000000 ≤ min 5000000000 (v.limiter.tokens + (tick.allowAt - l).toNat * 2) := by
    omega
  have hal := (allow_rate2_burst5 v.limiter tick.allowAt l hlast hl hlim hbur).1 hlevel
  simp only [validateTransaction_verdict, hg, e, hal] at ho
  simp only [hg, e1, hal] at hs
  refine ⟨?_, _, hs, ?_⟩
  · rw [ho]
    have : i + 1 ≤ 10 := by omega
    simp [this]
  · exact burstState_next a1 l tick.allowAt i B v.limiter.tokens _ hc hB rfl
      (by rw [hlim, hbur]) ha1 hl hlo hhi hi

/-- The request after the fifth of a burst, no later than 499 ms after the
first: the poll finds at most 0.998 token, the answer is 429, and the bucket
is stored as the poll found it. -/
theorem burst_last (cfg : Config) (tick : Tick) (sessions : Sessions) (req : Request)
    (id path : String) (apiData : Endpoint) (remote : String)
    (h : lookupEndpoint cfg.apis cfg.decode cfg.parse id = Lookup.found apiData remote)
    (a1 l : Int) (B : Nat) (v : Session) (hv : sessions req.RemoteAddr = some v)
    (hst : BurstState a1 l 5 B v) (hl : l ≤ tick.allowAt)
    (hfast : tick.allowAt - a1 ≤ 499000000) :
    (proxy_handler cfg tick sessions req id path).1 = Outcome.status 429 ∧
    ∃ w, (proxy_handler cfg tick sessions req id path).2 req.RemoteAddr = some w ∧
      (w.limiter.advance tick.allowAt).2 ≤ 998000000 := by
  obtain ⟨hc, hB, he, hlim, hbur, hlast, ha1, hlo, hhi⟩ := hst
  have ho := proxy_handler_found_outcome cfg tick sessions req id path apiData remote h
  have hs := proxy_handler_found_session cfg tick sessions req id path apiData remote h
  have hg := congrArg Prod.fst (getSession_of_some tick.balanceAtCreate tick.seenAt
    sessions req.RemoteAddr consumerAccount apiData.Address v hv)
  have hbound : min 5000000000 (v.limiter.tokens + (tick.allowAt - l).toNat * 2) ≤
      998000000 := by
    omega
  have hlevel : ¬ 1000000000 ≤
      min 5000000000 (v.limiter.tokens + (tick.allowAt - l).toNat * 2) := by
    omega
  have hal := (allow_rate2_burst5 v.limiter tick.allowAt l hlast hl hlim hbur).2 hlevel
  simp only [hg, hal] at ho hs
  refine ⟨?_, _, hs, ?_⟩
  · rw [ho]
    simp
  · have hadv := advance_rate2_burst5 { v.limiter with last := some l } tick.allowAt l rfl
      hl hlim hbur
    exact le_of_eq_of_le hadv hbound

/-- C9 as stated fails: six requests of a new client with a steady balance,
polled at 0, 100, 200, 300, 400 and 900 ms (all within one second), are all
six forwarded, because the bucket regains a token every half second. -/
theorem six_requests_within_a_second_all_forwarded :
    (spacedTicks 5).allowAt - (spacedTicks 0).allowAt < Second ∧
    (serve seededConfig
      [arrivalAt spacedTicks sampleRequest "a" "v1/status" 0,
       arrivalAt spacedTicks sampleRequest "a" "v1/status" 1,
       arrivalAt spacedTicks sampleRequest "a" "v1/status" 2,
       arrivalAt spacedTicks sampleRequest "a" "v1/status" 3,
       arrivalAt spacedTicks sampleRequest "a" "v1/status" 4,
       arrivalAt spacedTicks sampleRequest "a" "v1/status" 5] Sessions.empty).1 =
      List.replicate 6 (Outcome.proxied "https://alpha-api-nightly.mol.ai"
        { sampleRequest with Host := "", Path := "v1/status" }) := by
  decide

/-- C9, amended: for a client without a session, a resolving endpoint and a
consumer balance that stays equal to the snapshot, six requests polled in
order with the sixth no later than 499 ms (499 000 000 ns) after the first
yield five forwarded requests followed by one 429.  The sixth poll finds at
most 0.998 token in the bucket, two thousandths of a token short of the one
it needs, so the denial does not hang on the last digits of the level. -/
theorem six_rapid_requests_five_forwarded (cfg : Config) (sessions : Sessions)
    (req : Request) (id path : String) (apiData : Endpoint) (remote : String)
    (ts : Nat → Tick)
    (h : lookupEndpoint cfg.apis cfg.decode cfg.parse id = Lookup.found apiData remote)
    (hnew : sessions req.RemoteAddr = none)
    (hmono : ∀ i, i < 5 → (ts i).allowAt ≤ (ts (i + 1)).allowAt)
    (hfast : (ts 5).allowAt - (ts 0).allowAt ≤ 499000000)
    (hbal : ∀ i, i < 6 →
      (ts i).balanceAtValidate consumerAccount = (ts 0).balanceAtCreate consumerAccount) :
    (serve cfg
      [arrivalAt ts req id path 0, arrivalAt ts req id path 1, arrivalAt ts req id path 2,
       arrivalAt ts req id path 3, arrivalAt ts req id path 4, arrivalAt ts req id path 5]
      sessions).1 =
      [Outcome.proxied remote { req with Host := "", Path := path },
       Outcome.proxied remote { req with Host := "", Path := path },
       Outcome.proxied remote { req with Host := "", Path := path },
       Outcome.proxied remote { req with Host := "", Path := path },
       Outcome.proxied remote { req with Host := "", Path := path },
       Outcome.status 429] ∧
    ∃ s, (serve cfg
      [arrivalAt ts req id path 0, arrivalAt ts req id path 1, arrivalAt ts req id path 2,
       arrivalAt ts req id path 3, arrivalAt ts req id path 4, arrivalAt ts req id path 5]
      sessions).2 req.RemoteAddr = some s ∧
      (s.limiter.advance (ts 5).allowAt).2 ≤ 998000000 := by
  obtain ⟨o1, v1, hv1, st1⟩ := burst_first cfg (ts 0) sessions req id path apiData remote h
    hnew (hbal 0 (by norm_num))
  obtain ⟨o2, v2, hv2, st2⟩ := burst_next cfg (ts 1) _ req id path apiData remote h
    _ _ 1 _ v1 hv1 st1 (by norm_num) (hmono 0 (by norm_num)) (hbal 1 (by norm_num))
  obtain ⟨o3, v3, hv3, st3⟩ := burst_next cfg (ts 2) _ req id path apiData remote h
    _ _ 2 _ v2 hv2 st2 (by norm_num) (hmono 1 (by norm_num)) (hbal 2 (by norm_num))
  obtain ⟨o4, v4, hv4, st4⟩ := burst_next cfg (ts 3) _ req id path apiData remote h
    _ _ 3 _ v3 hv3 st3 (by norm_num) (hmono 2 (by norm_num)) (hbal 3 (by norm_num))
  obtain ⟨o5, v5, hv5, st5⟩ := burst_next cfg (ts 4) _ req id path apiData remote h
    _ _ 4 _ v4 hv4 st4 (by norm_num) (hmono 3 (by norm_num)) (hbal 4 (by norm_num))
  obtain ⟨o6, v6, hv6, hlevel⟩ := burst_last cfg (ts 5) _ req id path apiData remote h
    _ _ _ v5 hv5 st5 (hmono 4 (by norm_num)) hfast
  refine ⟨?_, v6, ?_, hlevel⟩
  · simp only [serve, arrivalAt, o1, o2, o3, o4, o5, o6]
  · simp only [serve, arrivalAt]
    exact hv6

theorem six_rapid_requests_five_forwarded_witness :
    (serve seededConfig
      [arrivalAt rapidTicks sampleRequest "a" "v1/status" 0,
       arrivalAt rapidTicks sampleRequest "a" "v1/status" 1,
       arrivalAt rapidTicks sampleRequest "a" "v1/status" 2,
       arrivalAt rapidTicks sampleRequest "a" "v1/status" 3,
       arrivalAt rapidTicks sampleRequest "a" "v1/status" 4,
       arrivalAt rapidTicks sampleRequest "a" "v1/status" 5] Sessions.empty).1 =
      [Outcome.proxied "https://alpha-api-nightly.mol.ai"
         { sampleRequest with Host := "", Path := "v1/status" },
       Outcome.proxied "https://alpha-api-nightly.mol.ai"
         { sampleRequest with Host := "", Path := "v1/status" },
       Outcome.proxied "https://alpha-api-nightly.mol.ai"
         { sampleRequest with Host := "", Path := "v1/status" },
       Outcome.proxied "https://alpha-api-nightly.mol.ai"
         { sampleRequest with Host := "", Path := "v1/status" },
       Outcome.proxied "https://alpha-api-nightly.mol.ai"
         { sampleRequest with Host := "", Path := "v1/status" },
       Outcome.status 429] :=
  (six_rapid_requests_five_forwarded seededConfig Sessions.empty sampleRequest "a"
    "v1/status" _ _ rapidTicks seeded_lookup_a rfl
    (by
      intro i _
      simp only [rapidTicks, tickAtMs, steadyTick]
      push_cast
      omega)
    (by decide)
    (fun _ _ => rfl)).1

end Tollgate
